import Mathlib

/-!
Verification of the avatar subsystem of the ProtectEd server
(`services/AvatarService.js`, `models/User.js`, `controllers/ProfileController.js`).

JavaScript strings are embedded as Lean `String`; nullable string fields as
`Option String`; JS truthiness of a string field (`null`/`undefined`/`""` are
falsy) as `truthy`.  External effects (object-store puts/deletes, user-record
writes) are recorded in an explicit trace of `FxAct` actions, and the outcome
of each external call is prescribed by a `World` oracle so that theorems can
quantify over every pattern of remote success and failure.
-/

/-! ## JS string primitives -/

/-- Drops `pat` from the front of `l`; `none` when `pat` is not a prefix. -/
def chopPre : List Char → List Char → Option (List Char)
  | [], l => some l
  | _ :: _, [] => none
  | p :: ps, c :: cs => if p = c then chopPre ps cs else none

/-- JS `String.prototype.includes`: does `pat` occur inside `l`? -/
def containsSub : List Char → List Char → Bool
  | [], pat => pat.isEmpty
  | l@(_ :: tail), pat => (chopPre pat l).isSome || containsSub tail pat

/-- JS `String.prototype.replace(pat, the empty string)`: removes the first
occurrence of `pat`, leaving the list unchanged when `pat` does not occur. -/
def replaceFirstL (pat : List Char) : List Char → List Char
  | [] => []
  | c :: cs =>
    match chopPre pat (c :: cs) with
    | some rest => rest
    | none => c :: replaceFirstL pat cs

def strIncludes (s pat : String) : Bool := containsSub s.data pat.data

def replaceFirstS (s pat : String) : String := String.mk (replaceFirstL pat.data s.data)

/-- JS truthiness of a nullable string: `null`/`undefined` and `""` are falsy. -/
def truthy : Option String → Bool
  | none => false
  | some s => s != ""

/-! ## `encodeURIComponent` -/

/-- Characters `encodeURIComponent` leaves unescaped. -/
def isUnreservedURI (c : Char) : Bool :=
  c.isAlphanum || c == '-' || c == '_' || c == '.' || c == '!' || c == '~' ||
    c == '*' || c == Char.ofNat 39 || c == '(' || c == ')'

/-- Uppercase hexadecimal digit for `n < 16`. -/
def hexDigit (n : Nat) : Char :=
  if n < 10 then Char.ofNat (48 + n) else Char.ofNat (55 + n)

/-- UTF-8 byte sequence of a code point, as `Nat`s below 256. -/
def utf8Bytes (c : Char) : List Nat :=
  let n := c.toNat
  if n < 0x80 then [n]
  else if n < 0x800 then [0xC0 + n / 64, 0x80 + n % 64]
  else if n < 0x10000 then [0xE0 + n / 4096, 0x80 + (n / 64) % 64, 0x80 + n % 64]
  else [0xF0 + n / 262144, 0x80 + (n / 4096) % 64, 0x80 + (n / 64) % 64, 0x80 + n % 64]

def encodeURIComponent (s : String) : String :=
  String.mk (List.flatten (s.data.map fun c =>
    if isUnreservedURI c then [c]
    else List.flatten ((utf8Bytes c).map fun b => ['%', hexDigit (b / 16), hexDigit (b % 16)])))

/-! ## Lemmas about the string primitives -/

theorem chopPre_append (p l : List Char) : chopPre p (p ++ l) = some l := by
  induction p with
  | nil => rfl
  | cons c cs ih => simp [chopPre, ih]

theorem containsSub_of_chop (l pat : List Char) (h : (chopPre pat l).isSome) :
    containsSub l pat = true := by
  cases l with
  | nil =>
    cases pat with
    | nil => rfl
    | cons c cs => simp [chopPre] at h
  | cons c cs => simp [containsSub, h]

theorem containsSub_pre (pat rest : List Char) :
    containsSub (pat ++ rest) pat = true := by
  exact containsSub_of_chop _ _ (by simp [chopPre_append])

theorem containsSub_mid (a pat b : List Char) :
    containsSub (a ++ (pat ++ b)) pat = true := by
  induction a with
  | nil => simpa using containsSub_pre pat b
  | cons c cs ih => simp [containsSub, ih]

theorem replaceFirstL_append (pat rest : List Char) (h : pat ≠ []) :
    replaceFirstL pat (pat ++ rest) = rest := by
  cases pat with
  | nil => exact absurd rfl h
  | cons p ps => simp [replaceFirstL, chopPre, chopPre_append]

theorem join_map_singleton {α β : Type} (f : α → β) (l : List α) :
    List.flatten (l.map fun a => [f a]) = l.map f := by
  induction l with
  | nil => rfl
  | cons x xs ih => simp [ih]

instance {ε α : Type} [DecidableEq ε] [DecidableEq α] : DecidableEq (Except ε α) := by
  intro x y
  cases x <;> cases y
  case error.error e f =>
    exact if h : e = f then isTrue (by rw [h]) else
      isFalse (fun hc => h (by injection hc))
  case ok.ok a b =>
    exact if h : a = b then isTrue (by rw [h]) else
      isFalse (fun hc => h (by injection hc))
  case error.ok e b => exact isFalse (fun hc => Except.noConfusion hc)
  case ok.error a f => exact isFalse (fun hc => Except.noConfusion hc)

/-! ## Data model and effect model -/

/-- Process-wide configuration (environment variables read at startup). -/
structure Config where
  /-- `R2_PUBLIC_URL`, the current public base URL. -/
  publicUrl : String
  /-- `OLD_R2_PUBLIC_URL`, the legacy domain; `none` when the variable is unset. -/
  oldR2PublicUrl : Option String

/-- The avatar-relevant slice of the `User` model (`models/User.js`). -/
structure User where
  id : Nat
  email : String
  name : Option String
  avatar_key : Option String
  avatar_url : Option String

/-- External effects a run can issue, recorded in order. -/
inductive FxAct where
  /-- `PutObjectCommand` with the given key. -/
  | putObj (key : String)
  /-- `DeleteObjectCommand` / `FileStorageService.deleteFile` with the given key. -/
  | delObj (key : String)
  /-- A write to the named column of the user record followed by `save`. -/
  | writeUser (field : String)
deriving DecidableEq

/-- Oracle fixing the outcome of every external call in a run. -/
structure World where
  /-- Whether the object-store delete for a given key fails (throws/rejects). -/
  delFails : String → Bool
  /-- Whether `File.findAll` in the before-destroy hook throws. -/
  findAllFails : Bool
  /-- The `sharp` resize/re-encode stage: `none` when the buffer cannot be
  decoded (the promise rejects), otherwise the processed buffer. -/
  sharpDecode : Nat → Option Nat
  /-- Whether the object-store put (`r2Client.send` of the put) fails. -/
  putFails : Bool

/-! ## FileStorageService (not present in the sources; used by `models/User.js`) -/

/-- Modelled from the spec: `FileStorageService.constructUrl`, the missing
service module required by `User.getAvatarUrl` — "construct and return the
canonical URL by joining the current public base URL with the key". The join
uses `/`, as in the in-repo `AvatarService.uploadAvatar`. -/
def FileStorageService.constructUrl (cfg : Config) (key : String) : String :=
  cfg.publicUrl ++ "/" ++ key

/-- `AvatarService.getDefaultAvatar` (`services/AvatarService.js`). -/
def AvatarService.getDefaultAvatar (name : String) : String :=
  "https://ui-avatars.com/api/?name=" ++ encodeURIComponent name ++ "&background=random&size=400"

/-- Modelled from the spec: `FileStorageService.getDefaultAvatar`, the missing
module's default-avatar generator — "a generated default-avatar URL
parameterized by the display name ... suitable for a third-party
initials-avatar renderer"; mirrored from the in-repo
`AvatarService.getDefaultAvatar`, the repository's one concrete such
generator. -/
def FileStorageService.getDefaultAvatar (name : String) : String :=
  AvatarService.getDefaultAvatar name

/-- Modelled from the spec: `FileStorageService.deleteFile`, the missing
module's object deletion — "accepts a key for deletion, returns
success/failure". It issues the delete request and rejects when the store
reports failure. -/
def FileStorageService.deleteFile (w : World) (key : String) : List FxAct × Except String Unit :=
  ([FxAct.delObj key],
    if w.delFails key then Except.error "delete failed" else Except.ok ())

/-! ## `User.getAvatarUrl` (`models/User.js`, lines 161-186) -/

def User.getAvatarUrl (cfg : Config) (u : User) : String :=
  -- Priority 1: avatar_key
  if truthy u.avatar_key then
    FileStorageService.constructUrl cfg (u.avatar_key.getD "")
  -- Priority 2: deprecated avatar_url
  else if truthy u.avatar_url then
    let url := u.avatar_url.getD ""
    if truthy cfg.oldR2PublicUrl && strIncludes url (cfg.oldR2PublicUrl.getD "") then
      FileStorageService.constructUrl cfg
        (replaceFirstS url (cfg.oldR2PublicUrl.getD "" ++ "/"))
    else url
  -- Priority 3: default avatar
  else
    FileStorageService.getDefaultAvatar
      (if truthy u.name then u.name.getD "" else u.email)

/-! ## `User.beforeDestroy` (`models/User.js`, lines 307-341) -/

/-- A `try`/`catch` (or `.catch`) around a delete: on success the success is
logged, on failure the error is logged; either way the surrounding code
continues with the issued trace. -/
def swallow (r : List FxAct × Except String Unit) : List FxAct :=
  match r.2 with
  | Except.ok _ => r.1
  | Except.error _ => r.1

/-- The before-destroy cleanup hook.  `userFiles` are the `file_key`s of the
`File` rows owned by the user (as returned by `File.findAll` when it does not
throw).  Returns the trace of issued delete requests and the hook's outcome;
every failure site in the source is wrapped in a `try`/`catch` (or a per-file
`.catch`), embedded by `swallow`. -/
def User.beforeDestroy (w : World) (u : User) (userFiles : List String) :
    List FxAct × Except String Unit :=
  -- if (user.avatar_key) { try { deleteFile } catch { /- logged, swallowed -/ } }
  let t1 : List FxAct :=
    if truthy u.avatar_key then
      swallow (FileStorageService.deleteFile w (u.avatar_key.getD ""))
    else []
  -- try { findAll; if any: map over files, each deleteFile(...).catch(log);
  --       Promise.all } catch { /- logged, swallowed -/ }
  let t2 : List FxAct :=
    if w.findAllFails then []
    else if userFiles.length > 0 then
      List.flatten (userFiles.map fun k => swallow (FileStorageService.deleteFile w k))
    else []
  (t1 ++ t2, Except.ok ())

/-! ## `AvatarService` (`services/AvatarService.js`) -/

/-- `AvatarService.uploadAvatar`.  Buffers are abstract `Nat` identifiers; the
`sharp` stage's behaviour on them is prescribed by the world.  `timestampMs`
is `Date.now()` and `randomHex` is `crypto.randomBytes(16).toString(hex)`,
both inputs of the run.  Returns the effect trace and either the value the
promise resolves with or the message of the thrown error. -/
def AvatarService.uploadAvatar (cfg : Config) (w : World)
    (fileBuffer userId timestampMs : Nat) (randomHex : String) :
    List FxAct × Except String String :=
  match w.sharpDecode fileBuffer with
  | none =>
    -- sharp rejected; caught by the catch-all, rethrown as a generic error
    ([], Except.error "Failed to upload avatar")
  | some _processed =>
    let filename :=
      "avatars/" ++ toString userId ++ "/" ++ toString timestampMs ++ "-" ++ randomHex ++ ".jpg"
    if w.putFails then
      ([FxAct.putObj filename], Except.error "Failed to upload avatar")
    else
      ([FxAct.putObj filename], Except.ok (cfg.publicUrl ++ "/" ++ filename))

/-- `AvatarService.deleteAvatar`.  Returns the trace of issued delete
requests and the boolean the promise resolves with; the `try`/`catch` turns a
failed `send` into `false`. -/
def AvatarService.deleteAvatar (cfg : Config) (w : World) (avatarUrl : Option String) :
    List FxAct × Bool :=
  if truthy avatarUrl = false || strIncludes (avatarUrl.getD "") cfg.publicUrl = false then
    -- Not a valid R2 URL, skip deletion
    ([], false)
  else
    let key := replaceFirstS (avatarUrl.getD "") (cfg.publicUrl ++ "/")
    ([FxAct.delObj key], !(w.delFails key))

/-- A multer file object as seen by `AvatarService.validateImage`. -/
structure MulterFile where
  size : Nat
  mimetype : String
  buffer : Nat

/-- `AvatarService.validateImage`: returns `(valid, errors)`. -/
def AvatarService.validateImage (f : MulterFile) : Bool × List String :=
  let sizeErrs : List String :=
    if f.size > 5 * 1024 * 1024 then ["File size exceeds 5MB limit"] else []
  let allowedTypes : List String := ["image/jpeg", "image/png", "image/jpg"]
  let typeErrs : List String :=
    if allowedTypes.contains f.mimetype then []
    else ["Invalid file type. Only JPEG and PNG are allowed"]
  let errors := sizeErrs ++ typeErrs
  (errors.isEmpty, errors)

/-! ## `ProfileController` (`controllers/ProfileController.js`) -/

/-- `ProfileController.uploadAvatar` (lines 202-226).  `reqFilePath` is
`req.file.path` when a file was uploaded.  Returns the updated user record,
the trace of user-record writes, and the `avatar_url` value of the JSON
response (`none` for the 400 response). -/
def ProfileController.uploadAvatar (u : User) (reqFilePath : Option String) :
    User × List FxAct × Option String :=
  match reqFilePath with
  | none => (u, [], none)
  | some p => ({ u with avatar_url := some p }, [FxAct.writeUser "avatar_url"], some p)

/-- `ProfileController.deleteAvatar` (lines 231-248).  Returns the updated
user record, the trace of user-record writes, and the `avatar_url` value of
the JSON response. -/
def ProfileController.deleteAvatar (cfg : Config) (u : User) :
    User × List FxAct × String :=
  let u' := { u with avatar_url := none }
  (u', [FxAct.writeUser "avatar_url"], User.getAvatarUrl cfg u')

/-! ## String-level helper lemmas -/

theorem strIncludes_pre (a b : String) : strIncludes (a ++ b) a = true := by
  unfold strIncludes
  rw [String.data_append]
  exact containsSub_pre _ _

theorem replaceFirstS_pre (a b : String) (h : a ≠ "") : replaceFirstS (a ++ b) a = b := by
  unfold replaceFirstS
  rw [String.data_append, replaceFirstL_append _ _ (fun hd => h (String.ext hd))]

theorem swallow_eq (r : List FxAct × Except String Unit) : swallow r = r.1 := by
  rcases r with ⟨t, e⟩
  cases e <;> rfl

/-! ## Concrete configurations, users and worlds used as test inputs -/

def cfgA : Config := { publicUrl := "https://cdn.example", oldR2PublicUrl := none }

def cfgB : Config :=
  { publicUrl := "https://current.example", oldR2PublicUrl := some "https://old.example/files" }

def wOk : World :=
  { delFails := fun _ => false, findAllFails := false, sharpDecode := some, putFails := false }

def uC1 : User :=
  { id := 1, email := "e@x.y", name := none, avatar_key := some "",
    avatar_url := some "https://legacy.example/x.jpg" }

/-! ## Claim C1 -/

/-- Claim C1, counterexample to the claim as stated: a user whose
`avatar_key` is non-null but empty does not resolve to the canonical
base-joined URL — JS truthiness skips the empty key and falls through to
`avatar_url`, which is returned verbatim. -/
theorem c1_key_priority_cex :
    uC1.avatar_key = some ""
  ∧ User.getAvatarUrl cfgA uC1 = "https://legacy.example/x.jpg"
  ∧ User.getAvatarUrl cfgA uC1 ≠ FileStorageService.constructUrl cfgA "" := by decide

/-- Claim C1 (amended: `avatar_key` non-null and non-empty): for every user
whose `avatar_key` is a non-empty string, `User.getAvatarUrl` returns the
canonical URL joining the current public base URL with that key, regardless
of `avatar_url`. -/
theorem c1_key_priority (cfg : Config) (u : User) (k : String)
    (hk : u.avatar_key = some k) (hne : k ≠ "") :
    User.getAvatarUrl cfg u = FileStorageService.constructUrl cfg k := by
  unfold User.getAvatarUrl
  rw [hk]
  simp [truthy, hne]

/-- Claim C1 witness: the amended theorem at a concrete user. -/
theorem c1_key_priority_witness :
    User.getAvatarUrl cfgA { uC1 with avatar_key := some "avatars/1/x.jpg" }
      = FileStorageService.constructUrl cfgA "avatars/1/x.jpg" :=
  c1_key_priority cfgA _ "avatars/1/x.jpg" rfl (by decide)

/-! ## Claim C5 -/

def uC5 : User :=
  { id := 1, email := "e@x.y", name := none, avatar_key := none, avatar_url := some "" }

/-- Claim C5, counterexample to the claim as stated: a user with
`avatar_key` null and `avatar_url` non-null but empty does not get the
legacy URL back verbatim (it does not match the legacy domain either) —
JS truthiness treats the empty string as absence and resolution falls
through to the default avatar. -/
theorem c5_legacy_cex :
    uC5.avatar_url = some ""
  ∧ strIncludes "" "https://old.example/files" = false
  ∧ User.getAvatarUrl cfgB uC5 = FileStorageService.getDefaultAvatar "e@x.y"
  ∧ User.getAvatarUrl cfgB uC5 ≠ "" := by decide

/-- Claim C5 (amended: `avatar_url` non-null and non-empty): for every user
with a falsy `avatar_key` and `avatar_url = some s` with `s` non-empty:
if the configured legacy domain is set, non-empty, and `s` is the legacy
domain followed by `/` and a trailing component, resolution returns the
canonical URL reconstructed from that trailing component (no state is
mutated); if the legacy domain is unset/empty or `s` does not contain it,
resolution returns `s` verbatim. -/
theorem getAvatarUrl_legacy (cfg : Config) (u : User) (s : String)
    (hk : truthy u.avatar_key = false) (hu : u.avatar_url = some s) (hs : s ≠ "") :
    User.getAvatarUrl cfg u =
      if truthy cfg.oldR2PublicUrl && strIncludes s (cfg.oldR2PublicUrl.getD "") then
        FileStorageService.constructUrl cfg
          (replaceFirstS s (cfg.oldR2PublicUrl.getD "" ++ "/"))
      else s := by
  unfold User.getAvatarUrl
  rw [hk, hu]
  simp [truthy, hs]

theorem c5_legacy_resolution (cfg : Config) (u : User) (s : String)
    (hk : truthy u.avatar_key = false) (hu : u.avatar_url = some s) (hs : s ≠ "") :
    (∀ old rest, cfg.oldR2PublicUrl = some old → old ≠ "" → s = old ++ "/" ++ rest →
        User.getAvatarUrl cfg u = FileStorageService.constructUrl cfg rest)
  ∧ ((truthy cfg.oldR2PublicUrl = false
        ∨ strIncludes s (cfg.oldR2PublicUrl.getD "") = false) →
        User.getAvatarUrl cfg u = s) := by
  rw [getAvatarUrl_legacy cfg u s hk hu hs]
  constructor
  · intro old rest hold holdne hsform
    have hinc : strIncludes s old = true := by
      rw [hsform, String.append_assoc]
      exact strIncludes_pre _ _
    have hrepl : replaceFirstS s (old ++ "/") = rest := by
      rw [hsform]
      refine replaceFirstS_pre _ _ (fun hc => ?_)
      have hd : (old ++ "/").data = [] := by rw [hc]
      simp [String.data_append] at hd
    simp [hold, truthy, holdne, hinc, hrepl]
  · intro hside
    rcases hside with hfalse | hninc
    · simp [hfalse]
    · simp [hninc]

def uC5w : User :=
  { id := 9, email := "e@x.y", name := none, avatar_key := none,
    avatar_url := some "https://old.example/files/avatars/9/a.jpg" }

def uC5v : User :=
  { id := 9, email := "e@x.y", name := none, avatar_key := none,
    avatar_url := some "https://elsewhere.example/p.png" }

/-- Claim C5 witness: the amended theorem at the spec's own example (a legacy
URL under the legacy domain) and at a foreign legacy URL. -/
theorem c5_legacy_resolution_witness :
    User.getAvatarUrl cfgB uC5w = FileStorageService.constructUrl cfgB "avatars/9/a.jpg"
  ∧ User.getAvatarUrl cfgB uC5v = "https://elsewhere.example/p.png" :=
  ⟨(c5_legacy_resolution cfgB uC5w "https://old.example/files/avatars/9/a.jpg"
        (by decide) rfl (by decide)).1
      "https://old.example/files" "avatars/9/a.jpg" rfl (by decide) (by decide),
   (c5_legacy_resolution cfgB uC5v "https://elsewhere.example/p.png"
        (by decide) rfl (by decide)).2
      (Or.inr (by decide))⟩

/-! ## Claim C8 -/

/-- Claim C8: for every user with `avatar_key` null and `avatar_url` null,
`User.getAvatarUrl` returns the default-avatar URL parameterized by the
user's display name when truthy, else the email, and that URL contains the
URL-encoded display string.  (The embedding is a total function, so
resolution never throws.) -/
theorem c8_default_avatar (cfg : Config) (u : User)
    (hk : u.avatar_key = none) (hu : u.avatar_url = none) :
    User.getAvatarUrl cfg u
      = FileStorageService.getDefaultAvatar
          (if truthy u.name then u.name.getD "" else u.email)
  ∧ strIncludes (User.getAvatarUrl cfg u)
      (encodeURIComponent (if truthy u.name then u.name.getD "" else u.email)) = true := by
  have h1 : User.getAvatarUrl cfg u
      = FileStorageService.getDefaultAvatar
          (if truthy u.name then u.name.getD "" else u.email) := by
    unfold User.getAvatarUrl
    simp [hk, hu, truthy]
  refine ⟨h1, ?_⟩
  rw [h1]
  unfold FileStorageService.getDefaultAvatar AvatarService.getDefaultAvatar strIncludes
  rw [String.data_append, String.data_append, List.append_assoc]
  exact containsSub_mid _ _ _

def uC8 : User :=
  { id := 3, email := "kim@x.y", name := some "Ann Lee", avatar_key := none, avatar_url := none }

/-- Claim C8 witness: the theorem at a concrete user with a display name. -/
theorem c8_default_avatar_witness :
    User.getAvatarUrl cfgA uC8
      = FileStorageService.getDefaultAvatar
          (if truthy uC8.name then uC8.name.getD "" else uC8.email)
  ∧ strIncludes (User.getAvatarUrl cfgA uC8)
      (encodeURIComponent (if truthy uC8.name then uC8.name.getD "" else uC8.email)) = true :=
  c8_default_avatar cfgA uC8 rfl rfl

/-! ## Claim C2 -/

def uC2 : User :=
  { id := 1, email := "a@b.c", name := none, avatar_key := some "avatars/1/x.jpg",
    avatar_url := none }

/-- Claim C2, evaluation at the failing input: for a user whose avatar is
stored in `avatar_key`, the explicit avatar-removal controller leaves
`avatar_key` untouched (it nulls only the deprecated `avatar_url` column) and
the URL it returns is the key-based canonical URL, not the default-avatar URL
— contradicting the claim and the controller's own comment that the response
carries the default avatar. -/
theorem c2_removal_bug :
    (ProfileController.deleteAvatar cfgA uC2).1.avatar_key = some "avatars/1/x.jpg"
  ∧ (ProfileController.deleteAvatar cfgA uC2).2.2 = "https://cdn.example/avatars/1/x.jpg"
  ∧ (ProfileController.deleteAvatar cfgA uC2).2.2
      ≠ FileStorageService.getDefaultAvatar "a@b.c" := by decide

/-! ## Claim C9 -/

/-- Claim C9, evaluation at the failing input: both core controller
operations write the deprecated `avatar_url` column — upload persists the
multer file path into it, and removal nulls it — contradicting the claim
that `legacyAvatarUrl` is read-only for the core. -/
theorem c9_legacy_url_write_bug :
    (ProfileController.uploadAvatar uC2 (some "/tmp/up.jpg")).1.avatar_url = some "/tmp/up.jpg"
  ∧ FxAct.writeUser "avatar_url" ∈ (ProfileController.uploadAvatar uC2 (some "/tmp/up.jpg")).2.1
  ∧ FxAct.writeUser "avatar_url" ∈ (ProfileController.deleteAvatar cfgA uC2).2.1 := by decide

/-! ## Claim C3 -/

/-- Claim C3, counterexample to the claim as stated: a successful run of
`AvatarService.uploadAvatar` resolves with the full public URL (base joined
with the generated key), not the bare storage key. -/
theorem c3_returns_key_cex :
    (AvatarService.uploadAvatar cfgA wOk 1 9 1700000000000 "0123abcd").2
      = Except.ok "https://cdn.example/avatars/9/1700000000000-0123abcd.jpg"
  ∧ ("https://cdn.example/avatars/9/1700000000000-0123abcd.jpg" : String)
      ≠ "avatars/9/1700000000000-0123abcd.jpg" := by decide

/-- Claim C3 (amended: the pipeline returns the full public URL, i.e. the
public base joined with the generated user-scoped key, rather than the bare
key): every successful run returns that URL and performs no write to the
user record. -/
theorem c3_upload_returns_url (cfg : Config) (w : World) (b userId ts p : Nat) (hex : String)
    (hdec : w.sharpDecode b = some p) (hput : w.putFails = false) :
    (AvatarService.uploadAvatar cfg w b userId ts hex).2
      = Except.ok (cfg.publicUrl ++ "/" ++
          ("avatars/" ++ toString userId ++ "/" ++ toString ts ++ "-" ++ hex ++ ".jpg"))
  ∧ ∀ f, FxAct.writeUser f ∉ (AvatarService.uploadAvatar cfg w b userId ts hex).1 := by
  unfold AvatarService.uploadAvatar
  rw [hdec, hput]
  simp

/-- Claim C3 witness: the amended theorem at a concrete successful run. -/
theorem c3_upload_returns_url_witness :
    (AvatarService.uploadAvatar cfgA wOk 2 9 555 "ff").2
      = Except.ok (cfgA.publicUrl ++ "/" ++
          ("avatars/" ++ toString 9 ++ "/" ++ toString 555 ++ "-" ++ "ff" ++ ".jpg"))
  ∧ ∀ f, FxAct.writeUser f ∉ (AvatarService.uploadAvatar cfgA wOk 2 9 555 "ff").1 :=
  c3_upload_returns_url cfgA wOk 2 9 555 2 "ff" rfl rfl

/-! ## Claim C6 -/

def fC6 : MulterFile := { size := 6 * 1024 * 1024, mimetype := "image/jpeg", buffer := 1 }

/-- Claim C6, evaluation at the failing input: for a 6 MiB upload,
`AvatarService.validateImage` does flag the size violation, but the upload
pipeline `AvatarService.uploadAvatar` never invokes it (and checks no size
itself): the oversized payload is transformed, a store put is issued, and
the run succeeds. -/
theorem c6_size_validation_bug :
    fC6.size > 5 * 1024 * 1024
  ∧ (AvatarService.validateImage fC6).1 = false
  ∧ (AvatarService.validateImage fC6).2 = ["File size exceeds 5MB limit"]
  ∧ AvatarService.uploadAvatar cfgA wOk fC6.buffer 9 555 "abcd"
      = ([FxAct.putObj "avatars/9/555-abcd.jpg"],
         Except.ok "https://cdn.example/avatars/9/555-abcd.jpg") := by decide

/-! ## Claim C7 -/

def wBadDecode : World :=
  { delFails := fun _ => false, findAllFails := false, sharpDecode := fun _ => none,
    putFails := false }

def wBadPut : World :=
  { delFails := fun _ => false, findAllFails := false, sharpDecode := some, putFails := true }

/-- Claim C7, counterexample to the claim as stated: a run whose transform
stage cannot decode the payload and a run whose object-store put fails
surface the identical generic failure, so the caller cannot distinguish
which step failed. -/
theorem c7_distinct_errors_cex :
    (AvatarService.uploadAvatar cfgA wBadDecode 1 9 555 "ab").2
      = Except.error "Failed to upload avatar"
  ∧ (AvatarService.uploadAvatar cfgA wBadPut 1 9 555 "ab").2
      = Except.error "Failed to upload avatar"
  ∧ (AvatarService.uploadAvatar cfgA wBadDecode 1 9 555 "ab").2
      = (AvatarService.uploadAvatar cfgA wBadPut 1 9 555 "ab").2 := by decide

/-- Claim C7 (amended: the pipeline surfaces a single generic failure):
every failing run of `AvatarService.uploadAvatar`, whatever the failing
step, throws the same generic message, so failure outcomes are not
distinguishable by step. -/
theorem c7_generic_error (cfg : Config) (w : World) (b u t : Nat) (hex e : String)
    (h : (AvatarService.uploadAvatar cfg w b u t hex).2 = Except.error e) :
    e = "Failed to upload avatar" := by
  unfold AvatarService.uploadAvatar at h
  cases hd : w.sharpDecode b with
  | none =>
    rw [hd] at h
    simp at h
    exact h.symm
  | some p =>
    rw [hd] at h
    cases hp : w.putFails
    · rw [hp] at h
      simp at h
    · rw [hp] at h
      simp at h
      exact h.symm

/-- Claim C7 witness: the amended theorem applied to a concrete failing
run. -/
theorem c7_generic_error_witness : "Failed to upload avatar" = "Failed to upload avatar" :=
  c7_generic_error cfgA wBadDecode 1 9 555 "ab" "Failed to upload avatar" (by decide)

/-! ## Claim C4 -/

/-- Claim C4: the before-destroy cleanup never raises an error to the
deletion caller, whatever the outcomes of the remote calls (so the
user-record deletion always proceeds); when the file-ledger query succeeds
it issues exactly one delete request per target — the avatar object when a
truthy `avatar_key` is present, plus one per owned file — and the set of
issued requests does not depend on which individual deletes fail. -/
theorem c4_cleanup (w : World) (u : User) (files : List String) :
    (User.beforeDestroy w u files).2 = Except.ok ()
  ∧ (w.findAllFails = false →
      (User.beforeDestroy w u files).1 =
        (if truthy u.avatar_key then [FxAct.delObj (u.avatar_key.getD "")] else [])
          ++ files.map FxAct.delObj)
  ∧ (∀ w' : World, w'.findAllFails = w.findAllFails →
      (User.beforeDestroy w' u files).1 = (User.beforeDestroy w u files).1) := by
  refine ⟨rfl, ?_, ?_⟩
  · intro h
    cases files with
    | nil => simp [User.beforeDestroy, swallow_eq, FileStorageService.deleteFile, h]
    | cons a as =>
      simp [User.beforeDestroy, swallow_eq, FileStorageService.deleteFile, h,
        join_map_singleton]
  · intro w' hw
    simp [User.beforeDestroy, swallow_eq, FileStorageService.deleteFile, hw]

def uC4 : User :=
  { id := 7, email := "u@x.y", name := none, avatar_key := some "avatars/7/a.jpg",
    avatar_url := none }

def wC4 : World :=
  { delFails := fun k => k == "f1" || k == "f2", findAllFails := false,
    sharpDecode := some, putFails := false }

/-- Claim C4 witness: the spec's own scenario — a set avatar plus three
owned files, two of the four deletes failing — still issues all four delete
requests and completes without error. -/
theorem c4_cleanup_witness :
    (User.beforeDestroy wC4 uC4 ["f1", "f2", "f3"]).2 = Except.ok ()
  ∧ (User.beforeDestroy wC4 uC4 ["f1", "f2", "f3"]).1 =
      [FxAct.delObj "avatars/7/a.jpg", FxAct.delObj "f1", FxAct.delObj "f2",
        FxAct.delObj "f3"]
  ∧ wC4.delFails "f1" = true ∧ wC4.delFails "f2" = true :=
  ⟨(c4_cleanup wC4 uC4 ["f1", "f2", "f3"]).1, by decide, by decide, by decide⟩

/-! ## Claim C10 -/

/-- Claim C10: `AvatarService.deleteAvatar` (a total function here, so it
never throws) returns `([], false)` — no delete issued — when the URL is
null/empty or does not contain the configured public base URL; it returns
`true` only when the single delete request it issued succeeded; and when the
issued delete fails it returns `false`. -/
theorem c10_deleteAvatar_spec (cfg : Config) (w : World) (a : Option String) :
    (truthy a = false → AvatarService.deleteAvatar cfg w a = ([], false))
  ∧ (strIncludes (a.getD "") cfg.publicUrl = false →
        AvatarService.deleteAvatar cfg w a = ([], false))
  ∧ ((AvatarService.deleteAvatar cfg w a).2 = true →
        (AvatarService.deleteAvatar cfg w a).1
            = [FxAct.delObj (replaceFirstS (a.getD "") (cfg.publicUrl ++ "/"))]
          ∧ w.delFails (replaceFirstS (a.getD "") (cfg.publicUrl ++ "/")) = false)
  ∧ (truthy a = true → strIncludes (a.getD "") cfg.publicUrl = true →
        w.delFails (replaceFirstS (a.getD "") (cfg.publicUrl ++ "/")) = true →
        (AvatarService.deleteAvatar cfg w a).2 = false) := by
  refine ⟨?_, ?_, ?_, ?_⟩
  · intro h
    simp [AvatarService.deleteAvatar, h]
  · intro h
    simp [AvatarService.deleteAvatar, h]
  · intro h
    by_cases h1 : truthy a = false
    · simp [AvatarService.deleteAvatar, h1] at h
    · by_cases h2 : strIncludes (a.getD "") cfg.publicUrl = false
      · simp [AvatarService.deleteAvatar, h2] at h
      · rw [Bool.not_eq_false] at h1 h2
        simp [AvatarService.deleteAvatar, h1, h2] at h ⊢
        exact h
  · intro h1 h2 h3
    simp [AvatarService.deleteAvatar, h1, h2, h3]

/-- Claim C10 witness: the theorem at concrete inputs — a null URL and a URL
not containing the base yield `([], false)` with no delete issued. -/
theorem c10_deleteAvatar_spec_witness :
    AvatarService.deleteAvatar cfgA wOk none = ([], false)
  ∧ AvatarService.deleteAvatar cfgA wOk (some "nope") = ([], false) :=
  ⟨(c10_deleteAvatar_spec cfgA wOk none).1 rfl,
   (c10_deleteAvatar_spec cfgA wOk (some "nope")).2.1 (by decide)⟩
